import Mathlib

/-!
Verification of the weather-data-pipeline core: a shallow embedding of the
Record Store (src/database.py) and of the Normalizer and Aggregator endpoints
(src/api.py), over exact rational arithmetic, together with proofs of the
specification's testable properties.

Modelling conventions:
* Python floats are modelled as exact rationals (`ℚ`); an IEEE NaN produced by
  pandas (e.g. `std` of a single value, `corr` of a constant series) is
  modelled as `Option.none`.
* The SQLite table `weather_data` is modelled as a `List WeatherPoint` in
  insertion order; `SELECT ... ORDER BY timestamp DESC` is modelled by an
  insertion sort with a non-increasing-timestamp relation (SQL leaves the
  relative order of equal keys unspecified; the insertion sort is one
  refinement of that freedom).
-/

namespace WeatherPipeline

/-- One row of the `weather_data` table (src/database.py,
`insert_weather_data`).  Floats are modelled as exact rationals. -/
structure WeatherPoint where
  timestamp : ℚ
  temperature : ℚ
  humidity : ℚ
  pressure : ℚ
  wind_speed : ℚ
  rainfall : ℚ
deriving DecidableEq, Repr

/-- `WeatherDatabase.insert_weather_data`: appends the given points to the
table, in order. -/
def insert_weather_data (store pts : List WeatherPoint) : List WeatherPoint :=
  store ++ pts

/-- The WHERE clause built by `get_weather_data`: `timestamp >= start_time`
when a start bound is given and `timestamp <= end_time` when an end bound is
given (both inclusive, absent bound = no condition). -/
def matchesBounds (start_time end_time : Option ℚ) (p : WeatherPoint) : Bool :=
  (match start_time with
   | none => true
   | some s => decide (s ≤ p.timestamp)) &&
  (match end_time with
   | none => true
   | some e => decide (p.timestamp ≤ e))

/-- The `ORDER BY timestamp DESC` relation: `a` may precede `b` when `a` has
the later (or equal) timestamp. -/
def tsGe (a b : WeatherPoint) : Prop :=
  b.timestamp ≤ a.timestamp

instance : DecidableRel tsGe :=
  fun a b => inferInstanceAs (Decidable (b.timestamp ≤ a.timestamp))

instance : IsTotal WeatherPoint tsGe :=
  ⟨fun a b => le_total b.timestamp a.timestamp⟩

instance : IsTrans WeatherPoint tsGe :=
  ⟨fun _ _ _ hab hbc => le_trans hbc hab⟩

/-- `WeatherDatabase.get_weather_data`: filter by the optional inclusive time
bounds, order by timestamp descending, then apply `LIMIT`.  The Python code
appends the LIMIT clause under `if limit:`, so a limit of `0` is falsy and the
clause is omitted entirely; SQLite treats a negative LIMIT as "no limit". -/
def get_weather_data (store : List WeatherPoint) (limit : Option ℤ)
    (start_time end_time : Option ℚ) : List WeatherPoint :=
  let ordered := List.insertionSort tsGe (store.filter (matchesBounds start_time end_time))
  match limit with
  | none => ordered
  | some l => if l = 0 then ordered else if 0 < l then ordered.take l.toNat else ordered

/-- `WeatherDatabase.clear_old_data`, parametrised directly by the cutoff
timestamp it computes: `DELETE FROM weather_data WHERE timestamp < ?`.
Returns the deleted row count (`cursor.rowcount`) with the remaining table. -/
def clear_old_data (store : List WeatherPoint) (cutoff : ℚ) : ℕ × List WeatherPoint :=
  ((store.filter (fun p => decide (p.timestamp < cutoff))).length,
   store.filter (fun p => !decide (p.timestamp < cutoff)))

/- ### Helper lemmas about the store -/

lemma matchesBounds_none_none (p : WeatherPoint) : matchesBounds none none p = true :=
  rfl

lemma filter_matchesBounds_none_none (l : List WeatherPoint) :
    l.filter (matchesBounds none none) = l := by
  simp [matchesBounds_none_none]

lemma get_weather_data_no_bounds_all (store : List WeatherPoint) (limit : ℤ)
    (h : (store.length : ℤ) ≤ limit) :
    get_weather_data store (some limit) none none = List.insertionSort tsGe store := by
  simp only [get_weather_data, filter_matchesBounds_none_none]
  by_cases h0 : limit = 0
  · simp [h0]
  · rw [if_neg h0]
    by_cases hpos : 0 < limit
    · rw [if_pos hpos]
      apply List.take_of_length_le
      rw [List.length_insertionSort]
      omega
    · rw [if_neg hpos]

lemma mem_get_weather_data_unlimited (store : List WeatherPoint)
    (s e : Option ℚ) (p : WeatherPoint) :
    p ∈ get_weather_data store none s e ↔ p ∈ store ∧ matchesBounds s e p = true := by
  simp only [get_weather_data]
  rw [(List.perm_insertionSort tsGe _).mem_iff, List.mem_filter]

lemma length_filter_not_split (p : WeatherPoint → Bool) (l : List WeatherPoint) :
    (l.filter p).length + (l.filter (fun a => !p a)).length = l.length := by
  induction l with
  | nil => rfl
  | cons a l ih =>
      by_cases h : p a <;> simp [List.filter_cons, h, ← ih] <;> omega

/-- C1: Round trip through the Record Store: inserting a sequence of records
into an empty store and querying with `limit ≥ N` and no time bounds returns
exactly those records (a permutation, so every field value is preserved),
ordered by timestamp descending; moreover `startTime`/`endTime` act as
inclusive bounds on an unlimited query. -/
theorem C1_round_trip (pts : List WeatherPoint) (limit : ℤ)
    (hlim : (pts.length : ℤ) ≤ limit) :
    (get_weather_data (insert_weather_data [] pts) (some limit) none none).Perm pts ∧
    List.Sorted tsGe (get_weather_data (insert_weather_data [] pts) (some limit) none none) ∧
    (∀ (store : List WeatherPoint) (s e : ℚ) (p : WeatherPoint),
      p ∈ get_weather_data store none (some s) (some e) ↔
        p ∈ store ∧ s ≤ p.timestamp ∧ p.timestamp ≤ e) := by
  have hins : insert_weather_data [] pts = pts := by
    simp [insert_weather_data]
  rw [hins, get_weather_data_no_bounds_all pts limit hlim]
  refine ⟨List.perm_insertionSort tsGe pts, List.sorted_insertionSort tsGe pts, ?_⟩
  intro store s e p
  rw [mem_get_weather_data_unlimited]
  simp [matchesBounds]

/-- Witness for C1 at a concrete two-point store with limit 5. -/
theorem C1_round_trip_witness :
    ((([⟨1, 10, 50, 1000, 5, 0⟩, ⟨2, 12, 55, 1001, 6, 1⟩] : List WeatherPoint).length : ℤ) ≤ 5) ∧
    ((get_weather_data
        (insert_weather_data [] [⟨1, 10, 50, 1000, 5, 0⟩, ⟨2, 12, 55, 1001, 6, 1⟩])
        (some 5) none none).Perm [⟨1, 10, 50, 1000, 5, 0⟩, ⟨2, 12, 55, 1001, 6, 1⟩] ∧
     List.Sorted tsGe
       (get_weather_data
         (insert_weather_data [] [⟨1, 10, 50, 1000, 5, 0⟩, ⟨2, 12, 55, 1001, 6, 1⟩])
         (some 5) none none) ∧
     (∀ (store : List WeatherPoint) (s e : ℚ) (p : WeatherPoint),
       p ∈ get_weather_data store none (some s) (some e) ↔
         p ∈ store ∧ s ≤ p.timestamp ∧ p.timestamp ≤ e)) :=
  ⟨by decide, C1_round_trip [⟨1, 10, 50, 1000, 5, 0⟩, ⟨2, 12, 55, 1001, 6, 1⟩] 5 (by decide)⟩

/-- C6: Retention pruning exactness: `clear_old_data` removes exactly the rows
strictly older than the cutoff, reports their count (removed + kept = total),
and every kept row — exactly the rows with `cutoff ≤ timestamp` — remains
queryable afterwards. -/
theorem C6_retention_pruning (store : List WeatherPoint) (cutoff : ℚ) :
    (clear_old_data store cutoff).2 =
      store.filter (fun p => decide (cutoff ≤ p.timestamp)) ∧
    (clear_old_data store cutoff).1 + ((clear_old_data store cutoff).2).length =
      store.length ∧
    (∀ p : WeatherPoint,
      p ∈ get_weather_data (clear_old_data store cutoff).2 none none none ↔
        p ∈ store ∧ cutoff ≤ p.timestamp) := by
  have hkept : (clear_old_data store cutoff).2 =
      store.filter (fun p => decide (cutoff ≤ p.timestamp)) := by
    simp only [clear_old_data]
    apply List.filter_congr
    intro p _
    rw [← decide_not, decide_eq_decide]
    exact not_lt
  refine ⟨hkept, ?_, ?_⟩
  · simpa only [clear_old_data] using
      length_filter_not_split (fun p => decide (p.timestamp < cutoff)) store
  · intro p
    rw [mem_get_weather_data_unlimited, hkept, List.mem_filter]
    simp [matchesBounds]

/-- C10: a limit of `0` (falsy in Python, so the LIMIT clause is omitted) or
an absent limit returns all matching rows, ordered, with no cap at all. -/
theorem C10_zero_limit (store : List WeatherPoint) (s e : Option ℚ) :
    get_weather_data store (some 0) s e = get_weather_data store none s e ∧
    get_weather_data store none s e =
      List.insertionSort tsGe (store.filter (matchesBounds s e)) := by
  constructor <;> simp [get_weather_data]

/- ### Normalizer: `process_weather_data` (src/api.py, bridge script) -/

/-- The optional flat `current` object of an Open-Meteo payload; each field is
absent or a number (`.get(key, default)` supplies the default at use site). -/
structure CurrentSection where
  temperature_2m : Option ℚ
  relative_humidity_2m : Option ℚ
  surface_pressure : Option ℚ
  wind_speed_10m : Option ℚ
  precipitation : Option ℚ
deriving DecidableEq, Repr

/-- The optional `hourly` object: parallel arrays.  `hourly.get(key, [])`
makes an absent key the empty array, so the fields are plain lists.  Only the
length of `time` is consumed by the code (timestamps are re-derived from the
current time), so its entries stay as strings. -/
structure HourlySection where
  time : List String
  temperature_2m : List ℚ
  relative_humidity_2m : List ℚ
  surface_pressure : List ℚ
  wind_speed_10m : List ℚ
  precipitation : List ℚ
deriving DecidableEq, Repr

/-- A raw upstream payload; `none` models the `None` returned on fetch
failure (the falsy-payload early return also covers the empty dict, which
yields the same empty result). -/
structure RawPayload where
  current : Option CurrentSection
  hourly : Option HourlySection
deriving DecidableEq, Repr

/-- `temps[i] if i < len(temps) else default` — positional access with a
per-field default. -/
def getAt (l : List ℚ) (i : ℕ) (default : ℚ) : ℚ :=
  match l.get? i with
  | some v => v
  | none => default

/-- `process_weather_data(weather_data, num_points)` from the bridge script in
src/api.py: emit the current reading stamped `current_time`, then zip the
hourly arrays into `min(len(times), num_points - 1)` further points, the i-th
stamped `current_time + (i+1)*3600`, with fixed per-field defaults for missing
data.  `num_points` is a Python int, so the arithmetic is over `ℤ` and
`range` of a non-positive count is empty. -/
def process_weather_data (weather_data : Option RawPayload) (num_points : ℤ)
    (current_time : ℚ) : List WeatherPoint :=
  match weather_data with
  | none => []
  | some wd =>
      (match wd.current with
       | none => []
       | some c =>
           [{ timestamp := current_time
              temperature := c.temperature_2m.getD 20
              humidity := c.relative_humidity_2m.getD 50
              pressure := c.surface_pressure.getD 1013.25
              wind_speed := c.wind_speed_10m.getD 5
              rainfall := c.precipitation.getD 0 }]) ++
      (match wd.hourly with
       | none => []
       | some h =>
           (List.range (min (h.time.length : ℤ) (num_points - 1)).toNat).map fun (i : ℕ) =>
             { timestamp := current_time + ((i : ℚ) + 1) * 3600
               temperature := getAt h.temperature_2m i 20
               humidity := getAt h.relative_humidity_2m i 50
               pressure := getAt h.surface_pressure i 1013.25
               wind_speed := getAt h.wind_speed_10m i 5
               rainfall := getAt h.precipitation i 0 })

/-- C2 (counterexample): with `maxPoints = 0` the code still emits the current
reading — 1 point — while the claimed formula
`min(1 + min(L, maxPoints-1), maxPoints)` evaluates to 0. -/
theorem C2_counterexample :
    ¬ (((process_weather_data
          (some ⟨some ⟨none, none, none, none, none⟩, some ⟨[], [], [], [], [], []⟩⟩)
          0 0).length : ℤ) =
        min (1 + min (([] : List String).length : ℤ) (0 - 1)) 0) := by
  decide

/-- C2 (amended): for every payload holding both a current reading and an
hourly series of length `L`, and every `maxPoints ≥ 1`, normalization emits
exactly `min(1 + min(L, maxPoints-1), maxPoints)` points. -/
theorem C2_normalization_completeness (c : CurrentSection) (h : HourlySection)
    (maxPoints : ℤ) (now : ℚ) (hmp : 1 ≤ maxPoints) :
    ((process_weather_data (some ⟨some c, some h⟩) maxPoints now).length : ℤ) =
      min (1 + min (h.time.length : ℤ) (maxPoints - 1)) maxPoints := by
  simp only [process_weather_data, List.length_append, List.length_map,
    List.length_range, List.length_cons, List.length_nil]
  have hL : (0 : ℤ) ≤ (h.time.length : ℤ) := Int.natCast_nonneg _
  omega

/-- Witness for C2 at a concrete payload with `maxPoints = 1`. -/
theorem C2_normalization_completeness_witness :
    ((1 : ℤ) ≤ 1) ∧
    ((process_weather_data
        (some ⟨some ⟨none, none, none, none, none⟩,
               some ⟨["a", "b"], [3], [], [], [], []⟩⟩) 1 0).length : ℤ) =
      min (1 + min ((["a", "b"] : List String).length : ℤ) (1 - 1)) 1 :=
  ⟨by decide,
   C2_normalization_completeness ⟨none, none, none, none, none⟩
     ⟨["a", "b"], [3], [], [], [], []⟩ 1 0 (by decide)⟩

/-- C8: timestamps of one normalization call are strictly increasing in
emission order, and when both sections are present the current reading is
stamped `now` while the i-th hourly point is stamped `now + (i+1)*3600`. -/
theorem C8_monotonic_timestamps :
    (∀ (wd : Option RawPayload) (mp : ℤ) (now : ℚ),
      List.Pairwise (fun a b => a.timestamp < b.timestamp)
        (process_weather_data wd mp now)) ∧
    (∀ (c : CurrentSection) (h : HourlySection) (mp : ℤ) (now : ℚ),
      (process_weather_data (some ⟨some c, some h⟩) mp now).map (·.timestamp) =
        now :: (List.range (min (h.time.length : ℤ) (mp - 1)).toNat).map
          (fun (i : ℕ) => now + ((i : ℚ) + 1) * 3600)) := by
  constructor
  · intro wd mp now
    match wd with
    | none => simp [process_weather_data]
    | some ⟨cur, hl⟩ =>
        have hmap : ∀ (n : ℕ) (mk : ℕ → WeatherPoint),
            (∀ i, (mk i).timestamp = now + ((i : ℚ) + 1) * 3600) →
            List.Pairwise (fun a b => a.timestamp < b.timestamp)
              ((List.range n).map mk) ∧
            (∀ p ∈ (List.range n).map mk, now < p.timestamp) := by
          intro n mk hts
          constructor
          · refine (List.pairwise_lt_range n).map mk ?_
            intro i j hij
            rw [hts i, hts j]
            have : ((i : ℚ) + 1) < ((j : ℚ) + 1) := by
              exact_mod_cast Nat.succ_lt_succ hij
            nlinarith
          · intro p hp
            rcases List.mem_map.mp hp with ⟨i, _, rfl⟩
            rw [hts i]
            have : (0 : ℚ) < ((i : ℚ) + 1) * 3600 := by positivity
            linarith
        match cur, hl with
        | none, none => simp [process_weather_data]
        | none, some h =>
            simp only [process_weather_data, List.nil_append]
            refine (hmap _ _ ?_).1
            intro i
            rfl
        | some c, none =>
            simp [process_weather_data]
        | some c, some h =>
            simp only [process_weather_data, List.singleton_append]
            rw [List.pairwise_cons]
            refine ⟨(hmap _ _ ?_).2, (hmap _ _ ?_).1⟩ <;> intro i <;> rfl
  · intro c h mp now
    simp only [process_weather_data, List.singleton_append, List.map_cons, List.map_map]
    rfl

/- ### Aggregator: `get_statistics` (src/api.py) -/

/-- Arithmetic mean of a pandas column (`df[col].mean()`). -/
def mean (l : List ℚ) : ℚ :=
  l.sum / l.length

/-- `df[col].min()`; only consumed on non-empty windows. -/
def listMin (l : List ℚ) : ℚ :=
  l.min?.getD 0

/-- `df[col].max()`; only consumed on non-empty windows. -/
def listMax (l : List ℚ) : ℚ :=
  l.max?.getD 0

/-- Python `round` ties-to-even on the scaled value (float rounding idealised
to exact rational rounding). -/
def rhe (y : ℚ) : ℤ :=
  if y - ⌊y⌋ = 1 / 2 then (if 2 ∣ ⌊y⌋ then ⌊y⌋ else ⌊y⌋ + 1) else round y

/-- Python `round(q, d)`. -/
def rndQ (d : ℕ) (q : ℚ) : ℚ :=
  (rhe (q * 10 ^ d) : ℚ) / 10 ^ d

open Classical in
/-- Python round ties-to-even over the reals (for values derived from
`Real.sqrt`). -/
noncomputable def rheR (y : ℝ) : ℤ :=
  if y - ⌊y⌋ = 1 / 2 then (if 2 ∣ ⌊y⌋ then ⌊y⌋ else ⌊y⌋ + 1) else round y

/-- Python `round(x, d)` over the reals. -/
noncomputable def rndR (d : ℕ) (x : ℝ) : ℝ :=
  (rheR (x * 10 ^ d) : ℝ) / 10 ^ d

/-- The sample variance underlying pandas `df[col].std()` (ddof = 1): the
squared standard deviation, `some (Σ (x - mean)² / (N - 1))` for `N ≥ 2` and
`none` for `N ≤ 1`, where pandas returns NaN. -/
def sampleVar (l : List ℚ) : Option ℚ :=
  if 2 ≤ l.length then
    some ((l.map fun x => (x - mean l) ^ 2).sum / ((l.length : ℚ) - 1))
  else none

/-- The reported `round(df[col].std(), 2)`: the square root of the sample
variance, rounded; NaN (`none`) propagates through `round` unchanged. -/
noncomputable def reportedStd (v : Option ℚ) : Option ℝ :=
  v.map fun (q : ℚ) => rndR 2 (Real.sqrt (q : ℝ))

/-- One metric block of the `/statistics` response.  `variance` carries the
exact sample variance whose square root the endpoint reports (see
`reportedStd`); `none` models pandas returning NaN for `N ≤ 1`. -/
structure MetricStats where
  mean : ℚ
  min : ℚ
  max : ℚ
  variance : Option ℚ
deriving DecidableEq, Repr

/-- The rainfall block of the `/statistics` response. -/
structure RainStats where
  total : ℚ
  mean : ℚ
  max : ℚ
deriving DecidableEq, Repr

/-- Result of `/statistics`: the explicit "No data available for statistics"
message, or the per-metric statistics with the point count and the covered
timestamp range. -/
inductive StatisticsResult where
  | noData
  | stats (temperature humidity pressure wind_speed : MetricStats)
      (rainfall : RainStats) (count : ℕ) (range_start range_end : ℚ)
deriving DecidableEq, Repr

/-- Per-metric statistics block: `round(mean, 2)`, `round(min, 2)`,
`round(max, 2)` and the sample variance (see `MetricStats.variance`). -/
def metricStatsOf (xs : List ℚ) : MetricStats :=
  { mean := rndQ 2 (mean xs)
    min := rndQ 2 (listMin xs)
    max := rndQ 2 (listMax xs)
    variance := sampleVar xs }

/-- The window retrieved by `/statistics`:
`db.get_weather_data(limit=10000)`. -/
def statsWindow (store : List WeatherPoint) : List WeatherPoint :=
  get_weather_data store (some 10000) none none

/-- `get_statistics` (src/api.py): retrieve the window, return the explicit
no-data message when it is empty, otherwise the per-metric statistics. -/
def get_statistics (store : List WeatherPoint) : StatisticsResult :=
  if (statsWindow store).isEmpty then .noData
  else
    .stats (metricStatsOf ((statsWindow store).map (·.temperature)))
      (metricStatsOf ((statsWindow store).map (·.humidity)))
      (metricStatsOf ((statsWindow store).map (·.pressure)))
      (metricStatsOf ((statsWindow store).map (·.wind_speed)))
      { total := rndQ 2 ((statsWindow store).map (·.rainfall)).sum
        mean := rndQ 2 (mean ((statsWindow store).map (·.rainfall)))
        max := rndQ 2 (listMax ((statsWindow store).map (·.rainfall))) }
      (statsWindow store).length
      (listMin ((statsWindow store).map (·.timestamp)))
      (listMax ((statsWindow store).map (·.timestamp)))

/-- C3 (counterexample): on a single-point window (`N = 1`) every standard
deviation is pandas NaN (`variance = none`), not the claimed `0`. -/
theorem C3_counterexample :
    get_statistics [⟨1, 25, 50, 1000, 5, 0⟩] =
      .stats ⟨25, 25, 25, none⟩ ⟨50, 50, 50, none⟩ ⟨1000, 1000, 1000, none⟩
        ⟨5, 5, 5, none⟩ ⟨0, 0, 0⟩ 1 1 1 := by
  have hw : statsWindow [⟨1, 25, 50, 1000, 5, 0⟩] = [⟨1, 25, 50, 1000, 5, 0⟩] := by
    rw [statsWindow, get_weather_data_no_bounds_all _ _ (by decide)]
    decide
  norm_num [get_statistics, hw, metricStatsOf, mean, sampleVar, listMin, listMax,
    List.min?, List.max?, rndQ, rhe, round_eq, List.sum_cons, List.sum_nil]

/-- C3 (amended): statistics use the sample standard deviation — dividing by
`N - 1` for `N ≥ 2` and yielding NaN (`none`), not `0`, for `N = 1`; on the
window with temperatures `[10, 20, 30]` the endpoint reports mean `20`, min
`10`, max `30`, and a standard deviation of `10` (sample variance `100`). -/
theorem C3_statistics :
    get_statistics
        [⟨1, 10, 50, 1000, 5, 0⟩, ⟨2, 20, 50, 1000, 5, 0⟩, ⟨3, 30, 50, 1000, 5, 0⟩] =
      .stats ⟨20, 10, 30, some 100⟩ ⟨50, 50, 50, some 0⟩ ⟨1000, 1000, 1000, some 0⟩
        ⟨5, 5, 5, some 0⟩ ⟨0, 0, 0⟩ 3 1 3 ∧
    reportedStd (some (100 : ℚ)) = some 10 ∧
    (∀ x : ℚ, sampleVar [x] = none) ∧
    (∀ l : List ℚ, 2 ≤ l.length → ∃ v, sampleVar l = some v ∧
      v * ((l.length : ℚ) - 1) = (l.map fun x => (x - mean l) ^ 2).sum) := by
  have hw : statsWindow
      [⟨1, 10, 50, 1000, 5, 0⟩, ⟨2, 20, 50, 1000, 5, 0⟩, ⟨3, 30, 50, 1000, 5, 0⟩] =
      [⟨3, 30, 50, 1000, 5, 0⟩, ⟨2, 20, 50, 1000, 5, 0⟩, ⟨1, 10, 50, 1000, 5, 0⟩] := by
    rw [statsWindow, get_weather_data_no_bounds_all _ _ (by decide)]
    decide
  refine ⟨?_, ?_, fun x => rfl, ?_⟩
  · norm_num [get_statistics, hw, metricStatsOf, mean, sampleVar, listMin, listMax,
      List.min?, List.max?, rndQ, rhe, round_eq, List.sum_cons, List.sum_nil]
  · simp only [reportedStd, Option.map_some']
    have h1 : ((100 : ℚ) : ℝ) = (10 : ℝ) ^ 2 := by norm_num
    rw [h1, Real.sqrt_sq (by norm_num : (0 : ℝ) ≤ 10)]
    simp only [rndR, rheR]
    have h2 : (10 : ℝ) * 10 ^ 2 = ((1000 : ℤ) : ℝ) := by norm_num
    rw [h2, Int.floor_intCast, sub_self, if_neg (by norm_num), round_intCast]
    norm_num
  · intro l hl
    refine ⟨(l.map fun x => (x - mean l) ^ 2).sum / ((l.length : ℚ) - 1), ?_, ?_⟩
    · simp only [sampleVar]
      rw [if_pos hl]
    · have hne : ((l.length : ℚ) - 1) ≠ 0 := by
        have h2 : (2 : ℚ) ≤ (l.length : ℚ) := by exact_mod_cast hl
        linarith
      exact div_mul_cancel₀ _ hne

/-- Witness for C3's `N ≥ 2` clause at the concrete list `[1, 2]`. -/
theorem C3_statistics_witness :
    (2 ≤ ([(1 : ℚ), 2] : List ℚ).length) ∧
    (∃ v, sampleVar [(1 : ℚ), 2] = some v ∧
      v * ((([(1 : ℚ), 2] : List ℚ).length : ℚ) - 1) =
        (([(1 : ℚ), 2] : List ℚ).map fun x => (x - mean [(1 : ℚ), 2]) ^ 2).sum) :=
  ⟨by decide, C3_statistics.2.2.2 [(1 : ℚ), 2] (by decide)⟩

/-- C9: when the retrieved window holds zero points, `/statistics` returns the
explicit no-data result — no statistics fields are computed at all. -/
theorem C9_empty_input_safety (store : List WeatherPoint)
    (h : get_weather_data store (some 10000) none none = []) :
    get_statistics store = .noData := by
  have hw : statsWindow store = [] := h
  simp [get_statistics, hw]

/-- Witness for C9 at the empty store. -/
theorem C9_empty_input_safety_witness :
    (get_weather_data [] (some 10000) none none = []) ∧
    get_statistics [] = .noData :=
  ⟨by decide, C9_empty_input_safety [] (by decide)⟩

/- ### Aggregator: `get_analytics` (src/api.py) -/

/-- Centered cross-product sum `Σ (x - mean xs)(y - mean ys)` over
positionally zipped series — the building block of the Pearson correlation
pandas computes. -/
def Sxy (xs ys : List ℚ) : ℚ :=
  ((xs.zip ys).map fun p => (p.1 - mean xs) * (p.2 - mean ys)).sum

/-- pandas `Series.corr` (Pearson): `Σ dx·dy / sqrt(Σ dx² · Σ dy²)`; the NaN
returned when either series has zero variance (division by zero inside numpy,
reported as NaN, never raised) is modelled as `none`. -/
noncomputable def corrR (xs ys : List ℚ) : Option ℝ :=
  if Sxy xs xs = 0 ∨ Sxy ys ys = 0 then none
  else some ((Sxy xs ys : ℝ) / Real.sqrt ((Sxy xs xs * Sxy ys ys : ℚ) : ℝ))

open Classical in
/-- The trend label of src/api.py:
`"increasing" if slope > 0.1 else "decreasing" if slope < -0.1 else "stable"`.
Python comparisons with NaN are false, so an undefined correlation (`none`)
falls through to `"stable"`. -/
noncomputable def trendOfR (c : Option ℝ) : String :=
  match c with
  | none => "stable"
  | some r =>
      if r > 0.1 then "increasing" else if r < -0.1 then "decreasing" else "stable"

/-- `x = range(len(df))` as a rational series. -/
def idxQ (n : ℕ) : List ℚ :=
  (List.range n).map fun (i : ℕ) => (i : ℚ)

/-- The `ORDER BY timestamp` ascending relation (`df.sort_values`). -/
def tsLe (a b : WeatherPoint) : Prop :=
  a.timestamp ≤ b.timestamp

instance : DecidableRel tsLe :=
  fun a b => inferInstanceAs (Decidable (a.timestamp ≤ b.timestamp))

/-- The window retrieved by `/analytics`: `db.get_weather_data(limit=5000)`,
in timestamp-descending retrieval order with the fresh integer row index of
`read_sql_query`.  The subsequent `df.sort_values('timestamp')` permutes the
rows but keeps the original index labels, and
`pd.Series(df[col]).corr(pd.Series(x))` starts by aligning the two series on
their index labels, which undoes the sort: every correlation against
`range(N)` is effectively taken in this retrieval order.  All other analytics
steps are order-invariant, so the whole endpoint is modelled on this list. -/
def windowDesc (store : List WeatherPoint) : List WeatherPoint :=
  get_weather_data store (some 5000) none none

/-- `pd.to_datetime(df['timestamp'], unit='s').dt.hour`. -/
def hourKey (p : WeatherPoint) : ℤ :=
  ⌊p.timestamp / 3600⌋ % 24

/-- The distinct keys of a grouped aggregation (SQL GROUP BY / pandas
groupby); the caller sorts the result, so which duplicate survives is
irrelevant. -/
def distinctKeys : List ℤ → List ℤ
  | [] => []
  | k :: rest => if k ∈ rest then distinctKeys rest else k :: distinctKeys rest

/-- `df.groupby('hour')['temperature'].mean()`: ascending hour keys paired
with the mean temperature of the rows in each group. -/
def hourlyMeans (pts : List WeatherPoint) : List (ℤ × ℚ) :=
  (List.insertionSort (fun a b : ℤ => a ≤ b) (distinctKeys (pts.map hourKey))).map
    fun k => (k, mean ((pts.filter fun p => decide (hourKey p = k)).map (·.temperature)))

/-- `Series.idxmax`: the entry of the first occurrence of the maximum
value. -/
def maxPair : List (ℤ × ℚ) → Option (ℤ × ℚ)
  | [] => none
  | p :: rest =>
      match maxPair rest with
      | none => some p
      | some q => if q.2 > p.2 then some q else some p

/-- `Series.idxmin`: the entry of the first occurrence of the minimum
value. -/
def minPair : List (ℤ × ℚ) → Option (ℤ × ℚ)
  | [] => none
  | p :: rest =>
      match minPair rest with
      | none => some p
      | some q => if q.2 < p.2 then some q else some p

/-- Result of `/analytics`: the explicit "Insufficient data for analytics"
message when the window holds fewer than 10 points, otherwise the analytics
payload, fields in source order: the two trend labels, the two rounded trend
strengths, the three pattern percentages, the daily-pattern fields, and the
three rounded pairwise correlations. -/
inductive AnalyticsResult where
  | insufficientData
  | analytics
      (temperature_trend pressure_trend : String)
      (temperature_strength pressure_strength : Option ℝ)
      (high_pressure_percentage rainy_periods_percentage
        extreme_temperature_percentage : ℚ)
      (peak_temperature_hour lowest_temperature_hour : Option ℤ)
      (temperature_range : Option ℚ)
      (temp_humidity pressure_rainfall wind_pressure : Option ℝ)

/-- The `temperature_trend` field of an analytics response, when present. -/
def temperature_trend? : AnalyticsResult → Option String
  | .insufficientData => none
  | .analytics tt _ _ _ _ _ _ _ _ _ _ _ _ => some tt

/-- The `temp_humidity` correlation field of an analytics response, when
present. -/
def temp_humidity? : AnalyticsResult → Option (Option ℝ)
  | .insufficientData => none
  | .analytics _ _ _ _ _ _ _ _ _ _ th _ _ => some th

/-- `get_analytics` (src/api.py): gate on fewer than 10 retrieved points,
then trends (correlation of each metric with `range(N)` — see `windowDesc`
for why the pairing is the retrieval order), pattern percentages, daily
patterns and pairwise correlations. -/
noncomputable def get_analytics (store : List WeatherPoint) : AnalyticsResult :=
  if (windowDesc store).length < 10 then .insufficientData
  else
    .analytics
      (trendOfR (corrR ((windowDesc store).map (·.temperature))
        (idxQ (windowDesc store).length)))
      (trendOfR (corrR ((windowDesc store).map (·.pressure))
        (idxQ (windowDesc store).length)))
      ((corrR ((windowDesc store).map (·.temperature))
        (idxQ (windowDesc store).length)).map fun r => rndR 3 |r|)
      ((corrR ((windowDesc store).map (·.pressure))
        (idxQ (windowDesc store).length)).map fun r => rndR 3 |r|)
      (rndQ 2 ((((windowDesc store).filter fun p => decide (p.pressure > 1020)).length : ℚ) /
        ((windowDesc store).length : ℚ) * 100))
      (rndQ 2 ((((windowDesc store).filter fun p => decide (p.rainfall > 1)).length : ℚ) /
        ((windowDesc store).length : ℚ) * 100))
      (rndQ 2 ((((windowDesc store).filter fun p =>
          decide (p.temperature < 10 ∨ p.temperature > 35)).length : ℚ) /
        ((windowDesc store).length : ℚ) * 100))
      ((maxPair (hourlyMeans (windowDesc store))).map (·.1))
      ((minPair (hourlyMeans (windowDesc store))).map (·.1))
      (if hourlyMeans (windowDesc store) = [] then none
       else some (rndQ 2 (listMax ((hourlyMeans (windowDesc store)).map (·.2)) -
         listMin ((hourlyMeans (windowDesc store)).map (·.2)))))
      ((corrR ((windowDesc store).map (·.temperature))
        ((windowDesc store).map (·.humidity))).map fun r => rndR 3 r)
      ((corrR ((windowDesc store).map (·.pressure))
        ((windowDesc store).map (·.rainfall))).map fun r => rndR 3 r)
      ((corrR ((windowDesc store).map (·.wind_speed))
        ((windowDesc store).map (·.pressure))).map fun r => rndR 3 r)

lemma get_analytics_eq (store : List WeatherPoint)
    (h : ¬ (windowDesc store).length < 10) :
    get_analytics store =
      .analytics
        (trendOfR (corrR ((windowDesc store).map (·.temperature))
          (idxQ (windowDesc store).length)))
        (trendOfR (corrR ((windowDesc store).map (·.pressure))
          (idxQ (windowDesc store).length)))
        ((corrR ((windowDesc store).map (·.temperature))
          (idxQ (windowDesc store).length)).map fun r => rndR 3 |r|)
        ((corrR ((windowDesc store).map (·.pressure))
          (idxQ (windowDesc store).length)).map fun r => rndR 3 |r|)
        (rndQ 2 ((((windowDesc store).filter fun p => decide (p.pressure > 1020)).length : ℚ) /
          ((windowDesc store).length : ℚ) * 100))
        (rndQ 2 ((((windowDesc store).filter fun p => decide (p.rainfall > 1)).length : ℚ) /
          ((windowDesc store).length : ℚ) * 100))
        (rndQ 2 ((((windowDesc store).filter fun p =>
            decide (p.temperature < 10 ∨ p.temperature > 35)).length : ℚ) /
          ((windowDesc store).length : ℚ) * 100))
        ((maxPair (hourlyMeans (windowDesc store))).map (·.1))
        ((minPair (hourlyMeans (windowDesc store))).map (·.1))
        (if hourlyMeans (windowDesc store) = [] then none
         else some (rndQ 2 (listMax ((hourlyMeans (windowDesc store)).map (·.2)) -
           listMin ((hourlyMeans (windowDesc store)).map (·.2)))))
        ((corrR ((windowDesc store).map (·.temperature))
          ((windowDesc store).map (·.humidity))).map fun r => rndR 3 r)
        ((corrR ((windowDesc store).map (·.pressure))
          ((windowDesc store).map (·.rainfall))).map fun r => rndR 3 r)
        ((corrR ((windowDesc store).map (·.wind_speed))
          ((windowDesc store).map (·.pressure))).map fun r => rndR 3 r) := by
  rw [get_analytics, if_neg h]

lemma mean_of_const (xs : List ℚ) (x : ℚ) (hx : x ∈ xs) (hc : ∀ a ∈ xs, a = x) :
    mean xs = x := by
  have hsum := List.sum_eq_card_nsmul xs x hc
  have hlen : xs.length ≠ 0 := by
    intro h0
    rw [List.length_eq_zero] at h0
    simp [h0] at hx
  rw [mean, hsum, nsmul_eq_mul]
  have hlenQ : (xs.length : ℚ) ≠ 0 := by exact_mod_cast hlen
  field_simp

lemma Sxy_left_const (xs ys : List ℚ)
    (hc : ∀ a ∈ xs, ∀ b ∈ xs, a = b) : Sxy xs ys = 0 := by
  apply List.sum_eq_zero
  intro z hz
  rcases List.mem_map.mp hz with ⟨⟨x, y⟩, hmem, rfl⟩
  have hx : x ∈ xs := (List.of_mem_zip hmem).1
  have hmean : mean xs = x := mean_of_const xs x hx (fun a ha => hc a ha x hx)
  rw [hmean]
  ring

/-- C5: zero-variance safety: whenever any series is constant, the Pearson
correlation is the explicit undefined marker (pandas NaN, `none`) in either
argument position — never a division-by-zero fault — and on any window of at
least 10 points, each constant metric turns exactly the correlations
involving it into `none` while the endpoint still returns a full analytics
payload: constant temperature forces the temperature trend to `"stable"` and
`temp_humidity` to `none`; constant pressure forces the pressure trend to
`"stable"` and `pressure_rainfall`/`wind_pressure` to `none`; constant
humidity, rainfall or wind speed force `temp_humidity`, `pressure_rainfall`
or `wind_pressure`, respectively, to `none`. -/
theorem C5_zero_variance_safety (store : List WeatherPoint)
    (h10 : 10 ≤ (windowDesc store).length) :
    (∀ xs ys : List ℚ, (∀ a ∈ xs, ∀ b ∈ xs, a = b) →
      corrR xs ys = none ∧ corrR ys xs = none) ∧
    ((∀ a ∈ (windowDesc store).map (·.temperature),
        ∀ b ∈ (windowDesc store).map (·.temperature), a = b) →
      ∃ pt ps hp rp ep ph lh tr pr wp,
        get_analytics store =
          .analytics "stable" pt none ps hp rp ep ph lh tr none pr wp) ∧
    ((∀ a ∈ (windowDesc store).map (·.pressure),
        ∀ b ∈ (windowDesc store).map (·.pressure), a = b) →
      ∃ tt ts hp rp ep ph lh tr th,
        get_analytics store =
          .analytics tt "stable" ts none hp rp ep ph lh tr th none none) ∧
    ((∀ a ∈ (windowDesc store).map (·.humidity),
        ∀ b ∈ (windowDesc store).map (·.humidity), a = b) →
      ∃ tt pt ts ps hp rp ep ph lh tr pr wp,
        get_analytics store =
          .analytics tt pt ts ps hp rp ep ph lh tr none pr wp) ∧
    ((∀ a ∈ (windowDesc store).map (·.rainfall),
        ∀ b ∈ (windowDesc store).map (·.rainfall), a = b) →
      ∃ tt pt ts ps hp rp ep ph lh tr th wp,
        get_analytics store =
          .analytics tt pt ts ps hp rp ep ph lh tr th none wp) ∧
    ((∀ a ∈ (windowDesc store).map (·.wind_speed),
        ∀ b ∈ (windowDesc store).map (·.wind_speed), a = b) →
      ∃ tt pt ts ps hp rp ep ph lh tr th pr,
        get_analytics store =
          .analytics tt pt ts ps hp rp ep ph lh tr th pr none) := by
  refine ⟨?_, ?_, ?_, ?_, ?_, ?_⟩
  · intro xs ys hc
    have hS : Sxy xs xs = 0 := Sxy_left_const xs xs hc
    constructor
    · simp only [corrR]
      rw [if_pos (Or.inl hS)]
    · simp only [corrR]
      rw [if_pos (Or.inr hS)]
  · intro hc
    have hS : Sxy ((windowDesc store).map (·.temperature))
        ((windowDesc store).map (·.temperature)) = 0 := Sxy_left_const _ _ hc
    have hc1 : corrR ((windowDesc store).map (·.temperature))
        (idxQ (windowDesc store).length) = none := by
      simp only [corrR]
      rw [if_pos (Or.inl hS)]
    have hc2 : corrR ((windowDesc store).map (·.temperature))
        ((windowDesc store).map (·.humidity)) = none := by
      simp only [corrR]
      rw [if_pos (Or.inl hS)]
    have heq := get_analytics_eq store (by omega)
    rw [hc1, hc2] at heq
    simp only [Option.map_none'] at heq
    rw [show trendOfR none = "stable" from rfl] at heq
    exact ⟨_, _, _, _, _, _, _, _, _, _, heq⟩
  · intro hc
    have hS : Sxy ((windowDesc store).map (·.pressure))
        ((windowDesc store).map (·.pressure)) = 0 := Sxy_left_const _ _ hc
    have hc1 : corrR ((windowDesc store).map (·.pressure))
        (idxQ (windowDesc store).length) = none := by
      simp only [corrR]
      rw [if_pos (Or.inl hS)]
    have hc2 : corrR ((windowDesc store).map (·.pressure))
        ((windowDesc store).map (·.rainfall)) = none := by
      simp only [corrR]
      rw [if_pos (Or.inl hS)]
    have hc3 : corrR ((windowDesc store).map (·.wind_speed))
        ((windowDesc store).map (·.pressure)) = none := by
      simp only [corrR]
      rw [if_pos (Or.inr hS)]
    have heq := get_analytics_eq store (by omega)
    rw [hc1, hc2, hc3] at heq
    simp only [Option.map_none'] at heq
    rw [show trendOfR none = "stable" from rfl] at heq
    exact ⟨_, _, _, _, _, _, _, _, _, heq⟩
  · intro hc
    have hS : Sxy ((windowDesc store).map (·.humidity))
        ((windowDesc store).map (·.humidity)) = 0 := Sxy_left_const _ _ hc
    have hc1 : corrR ((windowDesc store).map (·.temperature))
        ((windowDesc store).map (·.humidity)) = none := by
      simp only [corrR]
      rw [if_pos (Or.inr hS)]
    have heq := get_analytics_eq store (by omega)
    rw [hc1] at heq
    simp only [Option.map_none'] at heq
    exact ⟨_, _, _, _, _, _, _, _, _, _, _, _, heq⟩
  · intro hc
    have hS : Sxy ((windowDesc store).map (·.rainfall))
        ((windowDesc store).map (·.rainfall)) = 0 := Sxy_left_const _ _ hc
    have hc1 : corrR ((windowDesc store).map (·.pressure))
        ((windowDesc store).map (·.rainfall)) = none := by
      simp only [corrR]
      rw [if_pos (Or.inr hS)]
    have heq := get_analytics_eq store (by omega)
    rw [hc1] at heq
    simp only [Option.map_none'] at heq
    exact ⟨_, _, _, _, _, _, _, _, _, _, _, _, heq⟩
  · intro hc
    have hS : Sxy ((windowDesc store).map (·.wind_speed))
        ((windowDesc store).map (·.wind_speed)) = 0 := Sxy_left_const _ _ hc
    have hc1 : corrR ((windowDesc store).map (·.wind_speed))
        ((windowDesc store).map (·.pressure)) = none := by
      simp only [corrR]
      rw [if_pos (Or.inl hS)]
    have heq := get_analytics_eq store (by omega)
    rw [hc1] at heq
    simp only [Option.map_none'] at heq
    exact ⟨_, _, _, _, _, _, _, _, _, _, _, _, heq⟩

/-- A 12-point store in which every metric's series is constant. -/
def allConstStore : List WeatherPoint :=
  [⟨1, 20, 50, 1000, 5, 0⟩, ⟨2, 20, 50, 1000, 5, 0⟩, ⟨3, 20, 50, 1000, 5, 0⟩,
   ⟨4, 20, 50, 1000, 5, 0⟩, ⟨5, 20, 50, 1000, 5, 0⟩, ⟨6, 20, 50, 1000, 5, 0⟩,
   ⟨7, 20, 50, 1000, 5, 0⟩, ⟨8, 20, 50, 1000, 5, 0⟩, ⟨9, 20, 50, 1000, 5, 0⟩,
   ⟨10, 20, 50, 1000, 5, 0⟩, ⟨11, 20, 50, 1000, 5, 0⟩, ⟨12, 20, 50, 1000, 5, 0⟩]

/-- Witness for C5: every hypothesis of the theorem discharged at the
concrete all-constant 12-point store (and the general correlation clause at
a concrete constant list). -/
theorem C5_zero_variance_safety_witness :
    (10 ≤ (windowDesc allConstStore).length) ∧
    (corrR [(20 : ℚ), 20, 20] [(1 : ℚ), 2, 3] = none ∧
      corrR [(1 : ℚ), 2, 3] [(20 : ℚ), 20, 20] = none) ∧
    (∃ pt ps hp rp ep ph lh tr pr wp,
      get_analytics allConstStore =
        .analytics "stable" pt none ps hp rp ep ph lh tr none pr wp) ∧
    (∃ tt ts hp rp ep ph lh tr th,
      get_analytics allConstStore =
        .analytics tt "stable" ts none hp rp ep ph lh tr th none none) ∧
    (∃ tt pt ts ps hp rp ep ph lh tr pr wp,
      get_analytics allConstStore =
        .analytics tt pt ts ps hp rp ep ph lh tr none pr wp) ∧
    (∃ tt pt ts ps hp rp ep ph lh tr th wp,
      get_analytics allConstStore =
        .analytics tt pt ts ps hp rp ep ph lh tr th none wp) ∧
    (∃ tt pt ts ps hp rp ep ph lh tr th pr,
      get_analytics allConstStore =
        .analytics tt pt ts ps hp rp ep ph lh tr th pr none) := by
  have h10 : 10 ≤ (windowDesc allConstStore).length := by decide
  have H := C5_zero_variance_safety allConstStore h10
  exact ⟨h10, H.1 [(20 : ℚ), 20, 20] [(1 : ℚ), 2, 3] (by decide),
    H.2.1 (by decide), H.2.2.1 (by decide), H.2.2.2.1 (by decide),
    H.2.2.2.2.1 (by decide), H.2.2.2.2.2 (by decide)⟩

/-- A 12-point store, as retrieved (timestamp-descending), whose temperatures
increase strictly with time: temperature equals the timestamp. -/
def trendBugStore : List WeatherPoint :=
  [⟨12, 12, 50, 1000, 5, 0⟩, ⟨11, 11, 50, 1000, 5, 0⟩, ⟨10, 10, 50, 1000, 5, 0⟩,
   ⟨9, 9, 50, 1000, 5, 0⟩, ⟨8, 8, 50, 1000, 5, 0⟩, ⟨7, 7, 50, 1000, 5, 0⟩,
   ⟨6, 6, 50, 1000, 5, 0⟩, ⟨5, 5, 50, 1000, 5, 0⟩, ⟨4, 4, 50, 1000, 5, 0⟩,
   ⟨3, 3, 50, 1000, 5, 0⟩, ⟨2, 2, 50, 1000, 5, 0⟩, ⟨1, 1, 50, 1000, 5, 0⟩]

/-- C4 (code bug evaluation): on a window whose time-ordered temperatures are
`[1..12]` — whose correlation with `range(12)` is exactly `+1 > 0.1`, so the
claim prescribes the label "increasing" — the endpoint labels the temperature
trend "decreasing".  pandas `Series.corr` aligns the two series on their
index labels before correlating, which undoes `df.sort_values('timestamp')`,
so the slope is computed against the timestamp-descending retrieval order and
its sign is inverted. -/
theorem C4_trend_inversion :
    (List.insertionSort tsLe trendBugStore).map (·.temperature) =
      [(1 : ℚ), 2, 3, 4, 5, 6, 7, 8, 9, 10, 11, 12] ∧
    corrR [(1 : ℚ), 2, 3, 4, 5, 6, 7, 8, 9, 10, 11, 12] (idxQ 12) = some 1 ∧
    ((1 : ℝ) > 0.1) ∧
    temperature_trend? (get_analytics trendBugStore) = some "decreasing" := by
  have hidx : idxQ 12 = [(0 : ℚ), 1, 2, 3, 4, 5, 6, 7, 8, 9, 10, 11] := by decide
  have hSaa : Sxy [(1 : ℚ), 2, 3, 4, 5, 6, 7, 8, 9, 10, 11, 12]
      [(1 : ℚ), 2, 3, 4, 5, 6, 7, 8, 9, 10, 11, 12] = 143 := by
    norm_num [Sxy, mean, List.zip_cons_cons, List.zip_nil_right, List.sum_cons,
      List.sum_nil, List.length_cons, List.length_nil]
  have hSbb : Sxy [(0 : ℚ), 1, 2, 3, 4, 5, 6, 7, 8, 9, 10, 11]
      [(0 : ℚ), 1, 2, 3, 4, 5, 6, 7, 8, 9, 10, 11] = 143 := by
    norm_num [Sxy, mean, List.zip_cons_cons, List.zip_nil_right, List.sum_cons,
      List.sum_nil, List.length_cons, List.length_nil]
  have hSab : Sxy [(1 : ℚ), 2, 3, 4, 5, 6, 7, 8, 9, 10, 11, 12]
      [(0 : ℚ), 1, 2, 3, 4, 5, 6, 7, 8, 9, 10, 11] = 143 := by
    norm_num [Sxy, mean, List.zip_cons_cons, List.zip_nil_right, List.sum_cons,
      List.sum_nil, List.length_cons, List.length_nil]
  have hSdd : Sxy [(12 : ℚ), 11, 10, 9, 8, 7, 6, 5, 4, 3, 2, 1]
      [(12 : ℚ), 11, 10, 9, 8, 7, 6, 5, 4, 3, 2, 1] = 143 := by
    norm_num [Sxy, mean, List.zip_cons_cons, List.zip_nil_right, List.sum_cons,
      List.sum_nil, List.length_cons, List.length_nil]
  have hSdb : Sxy [(12 : ℚ), 11, 10, 9, 8, 7, 6, 5, 4, 3, 2, 1]
      [(0 : ℚ), 1, 2, 3, 4, 5, 6, 7, 8, 9, 10, 11] = -143 := by
    norm_num [Sxy, mean, List.zip_cons_cons, List.zip_nil_right, List.sum_cons,
      List.sum_nil, List.length_cons, List.length_nil]
  have hsqrt : Real.sqrt ((((143 : ℚ) * 143 : ℚ)) : ℝ) = 143 := by
    have h : (((143 : ℚ) * 143 : ℚ) : ℝ) = (143 : ℝ) ^ 2 := by norm_num
    rw [h, Real.sqrt_sq (by norm_num : (0 : ℝ) ≤ 143)]
  refine ⟨by decide, ?_, by norm_num, ?_⟩
  · rw [hidx]
    simp only [corrR]
    rw [if_neg (by rw [hSaa, hSbb]; norm_num)]
    rw [hSab, hSaa, hSbb, hsqrt]
    norm_num
  · have hwd : windowDesc trendBugStore = trendBugStore := by
      rw [windowDesc, get_weather_data_no_bounds_all _ _ (by decide)]
      decide
    have hlen : ¬ (windowDesc trendBugStore).length < 10 := by
      rw [hwd]
      decide
    rw [get_analytics_eq _ hlen]
    simp only [temperature_trend?, Option.some.injEq]
    rw [hwd]
    have hmap : trendBugStore.map (·.temperature) =
        [(12 : ℚ), 11, 10, 9, 8, 7, 6, 5, 4, 3, 2, 1] := by decide
    have hlen12 : trendBugStore.length = 12 := by decide
    rw [hmap, hlen12, hidx]
    have hcorrNeg : corrR [(12 : ℚ), 11, 10, 9, 8, 7, 6, 5, 4, 3, 2, 1]
        [(0 : ℚ), 1, 2, 3, 4, 5, 6, 7, 8, 9, 10, 11] = some (-1) := by
      simp only [corrR]
      rw [if_neg (by rw [hSdd, hSbb]; norm_num)]
      rw [hSdb, hSdd, hSbb, hsqrt]
      norm_num
    rw [hcorrNeg]
    simp only [trendOfR]
    split_ifs with h1 h2
    · exact absurd h1 (by norm_num)
    · rfl
    · exact absurd (by norm_num : (-1 : ℝ) < -0.1) h2

/- ### Record Store: `get_aggregated_data` (src/database.py) -/

/-- The `'day'` bucket key: `strftime('%Y-%m-%d', datetime(timestamp,
'unixepoch'))` groups rows by UTC calendar day.  Distinct days correspond
exactly to distinct values of `⌊timestamp / 86400⌋`, and the lexicographic
order of the date labels agrees with the numeric order of this day number, so
the key is modelled by the day number. -/
def dayKey (ts : ℚ) : ℤ :=
  ⌊ts / 86400⌋

/-- One row of the aggregated response. -/
structure AggBucket where
  time_period : ℤ
  avg_temperature : ℚ
  min_temperature : ℚ
  max_temperature : ℚ
  avg_humidity : ℚ
  avg_pressure : ℚ
  avg_wind_speed : ℚ
  total_rainfall : ℚ
  data_points : ℕ
deriving DecidableEq, Repr

/-- The aggregates of one GROUP BY bucket. -/
def bucketOf (store : List WeatherPoint) (k : ℤ) : AggBucket :=
  { time_period := k
    avg_temperature :=
      mean ((store.filter fun p => decide (dayKey p.timestamp = k)).map (·.temperature))
    min_temperature :=
      listMin ((store.filter fun p => decide (dayKey p.timestamp = k)).map (·.temperature))
    max_temperature :=
      listMax ((store.filter fun p => decide (dayKey p.timestamp = k)).map (·.temperature))
    avg_humidity :=
      mean ((store.filter fun p => decide (dayKey p.timestamp = k)).map (·.humidity))
    avg_pressure :=
      mean ((store.filter fun p => decide (dayKey p.timestamp = k)).map (·.pressure))
    avg_wind_speed :=
      mean ((store.filter fun p => decide (dayKey p.timestamp = k)).map (·.wind_speed))
    total_rainfall :=
      ((store.filter fun p => decide (dayKey p.timestamp = k)).map (·.rainfall)).sum
    data_points := (store.filter fun p => decide (dayKey p.timestamp = k)).length }

/-- `get_aggregated_data(interval='day')`: group rows by the calendar-day
truncation of the timestamp, aggregate each group, order by bucket key
descending, `LIMIT 100`. -/
def get_aggregated_data_day (store : List WeatherPoint) : List AggBucket :=
  ((List.insertionSort (fun a b : ℤ => b ≤ a)
      (distinctKeys (store.map fun p => dayKey p.timestamp))).map (bucketOf store)).take 100

lemma filter_of_map {α β : Type} (p : β → Bool) (g : α → β) (l : List α) :
    (l.map g).filter p = (l.filter fun a => p (g a)).map g := by
  induction l with
  | nil => rfl
  | cons a l ih => by_cases h : p (g a) <;> simp [List.filter_cons, h, ih]

lemma distinctKeys_replicate (n : ℕ) (a : ℤ) :
    distinctKeys (List.replicate (n + 1) a) = [a] := by
  induction n with
  | zero => simp [distinctKeys]
  | succ m ih =>
      rw [List.replicate_succ, distinctKeys]
      simp [List.mem_replicate, ih]

lemma distinctKeys_replicate_append (n : ℕ) (a : ℤ) (l : List ℤ) (ha : a ∉ l) :
    distinctKeys (List.replicate (n + 1) a ++ l) = a :: distinctKeys l := by
  induction n with
  | zero => simp [distinctKeys, ha]
  | succ m ih =>
      rw [List.replicate_succ, List.cons_append, distinctKeys]
      have hmem : a ∈ List.replicate (m + 1) a ++ l := by
        simp [List.mem_replicate]
      simp only [hmem, if_true, ih]

lemma dayKey_of_hour (k : ℤ) (i : ℕ) (hi : i < 48) :
    dayKey (86400 * (k : ℚ) + 3600 * (i : ℚ)) = k + (i / 24 : ℕ) := by
  have hval : (86400 * (k : ℚ) + 3600 * (i : ℚ)) / 86400 = (k : ℚ) + (i : ℚ) / 24 := by
    field_simp
    ring
  rw [dayKey, hval, Int.floor_eq_iff]
  rcases lt_or_ge i 24 with h24 | h24
  · have hq : (i / 24 : ℕ) = 0 := by omega
    have hiq : (i : ℚ) < 24 := by exact_mod_cast h24
    have hiq0 : (0 : ℚ) ≤ (i : ℚ) := by positivity
    rw [hq]
    push_cast
    constructor <;> nlinarith
  · have hq : (i / 24 : ℕ) = 1 := by omega
    have hiq : (i : ℚ) < 48 := by exact_mod_cast hi
    have hiq0 : (24 : ℚ) ≤ (i : ℚ) := by exact_mod_cast h24
    rw [hq]
    push_cast
    constructor <;> nlinarith

/-- C7: inserting 48 hourly points that start at a midnight boundary (so they
span exactly two calendar days) and querying the daily aggregation yields
exactly two buckets, ordered by day key descending, each folding 24 points,
with `avg_temperature` the arithmetic mean of that day's inputs; and for
every store the response is capped at 100 rows. -/
theorem C7_bucketing (k : ℤ) (f : ℕ → WeatherPoint)
    (hts : ∀ i < 48, (f i).timestamp = 86400 * (k : ℚ) + 3600 * (i : ℚ)) :
    ((get_aggregated_data_day ((List.range 48).map f)).map (·.time_period) =
      [k + 1, k]) ∧
    ((get_aggregated_data_day ((List.range 48).map f)).map (·.data_points) =
      [24, 24]) ∧
    ((get_aggregated_data_day ((List.range 48).map f)).map (·.avg_temperature) =
      [mean ((List.range 24).map fun i => (f (24 + i)).temperature),
       mean ((List.range 24).map fun i => (f i).temperature)]) ∧
    (∀ s : List WeatherPoint, (get_aggregated_data_day s).length ≤ 100) := by
  have hkey : ∀ i < 48, dayKey (f i).timestamp = k + (i / 24 : ℕ) := by
    intro i hi
    rw [hts i hi]
    exact dayKey_of_hour k i hi
  have h48 : (48 : ℕ) = 24 + 24 := rfl
  have hkeys : ((List.range 48).map f).map (fun p => dayKey p.timestamp) =
      List.replicate 24 k ++ List.replicate 24 (k + 1) := by
    rw [List.map_map, h48, List.range_add, List.map_append, List.map_map]
    congr 1
    · rw [List.eq_replicate_iff]
      refine ⟨by simp, ?_⟩
      intro b hb
      rcases List.mem_map.mp hb with ⟨i, hi, rfl⟩
      have hi24 : i < 24 := List.mem_range.mp hi
      have := hkey i (by omega)
      simp only [Function.comp_apply]
      rw [this]
      have : (i / 24 : ℕ) = 0 := by omega
      rw [this]
      ring
    · rw [List.eq_replicate_iff]
      refine ⟨by simp, ?_⟩
      intro b hb
      rcases List.mem_map.mp hb with ⟨i, hi, rfl⟩
      have hi24 : i < 24 := List.mem_range.mp hi
      have := hkey (24 + i) (by omega)
      simp only [Function.comp_apply]
      rw [this]
      have : ((24 + i) / 24 : ℕ) = 1 := by omega
      rw [this]
      ring
  have hdk : distinctKeys (List.replicate 24 k ++ List.replicate 24 (k + 1)) =
      [k, k + 1] := by
    have h24 : (24 : ℕ) = 23 + 1 := rfl
    have hnotin : k ∉ List.replicate 24 (k + 1) := by
      simp only [List.mem_replicate]
      omega
    rw [h24, distinctKeys_replicate_append 23 k _ hnotin,
      distinctKeys_replicate 23 (k + 1)]
  have hsort : List.insertionSort (fun a b : ℤ => b ≤ a) [k, k + 1] = [k + 1, k] := by
    rw [show List.insertionSort (fun a b : ℤ => b ≤ a) [k, k + 1] =
        List.orderedInsert (fun a b : ℤ => b ≤ a) k [k + 1] from rfl]
    rw [List.orderedInsert, if_neg (by omega)]
    rfl
  have hrows : ∀ (kk : ℤ) (q : ℕ), (∀ i < 48, (dayKey (f i).timestamp = kk ↔
      (i / 24 : ℕ) = q)) →
      (((List.range 48).map f).filter fun p => decide (dayKey p.timestamp = kk)) =
        ((List.range 48).filter fun i => decide ((i / 24 : ℕ) = q)).map f := by
    intro kk q hcond
    rw [filter_of_map]
    congr 1
    apply List.filter_congr
    intro i hi
    have hi48 : i < 48 := List.mem_range.mp hi
    rw [decide_eq_decide]
    exact hcond i hi48
  have hrange0 : ((List.range 48).filter fun i => decide ((i / 24 : ℕ) = 0)) =
      List.range 24 := by
    rw [h48, List.range_add, List.filter_append]
    rw [List.filter_eq_self.mpr (fun i hi => by
      have : i < 24 := List.mem_range.mp hi
      simp
      omega)]
    rw [List.filter_eq_nil_iff.mpr (fun i hi => by
      rcases List.mem_map.mp hi with ⟨j, hj, rfl⟩
      have : j < 24 := List.mem_range.mp hj
      simp)]
    simp
  have hrange1 : ((List.range 48).filter fun i => decide ((i / 24 : ℕ) = 1)) =
      (List.range 24).map (24 + ·) := by
    rw [h48, List.range_add, List.filter_append]
    rw [List.filter_eq_nil_iff.mpr (fun i hi => by
      have : i < 24 := List.mem_range.mp hi
      simpa using by omega)]
    rw [List.filter_eq_self.mpr (fun i hi => by
      rcases List.mem_map.mp hi with ⟨j, hj, rfl⟩
      have : j < 24 := List.mem_range.mp hj
      simpa using by omega)]
    simp
  have hrows0 : (((List.range 48).map f).filter
      fun p => decide (dayKey p.timestamp = k)) = (List.range 24).map f := by
    rw [hrows k 0 (fun i hi => by rw [hkey i hi]; omega), hrange0]
  have hrows1 : (((List.range 48).map f).filter
      fun p => decide (dayKey p.timestamp = k + 1)) =
      (List.range 24).map fun i => f (24 + i) := by
    rw [hrows (k + 1) 1 (fun i hi => by rw [hkey i hi]; omega), hrange1]
    rw [List.map_map]
    rfl
  have hagg : get_aggregated_data_day ((List.range 48).map f) =
      [bucketOf ((List.range 48).map f) (k + 1), bucketOf ((List.range 48).map f) k] := by
    rw [get_aggregated_data_day, hkeys, hdk, hsort]
    rw [List.take_of_length_le (by simp)]
    rfl
  refine ⟨?_, ?_, ?_, ?_⟩
  · rw [hagg]
    simp [bucketOf]
  · rw [hagg]
    simp only [List.map_cons, List.map_nil, bucketOf, hrows0, hrows1]
    simp
  · rw [hagg]
    simp only [List.map_cons, List.map_nil, bucketOf, hrows0, hrows1]
    rw [List.map_map, List.map_map]
    rfl
  · intro s
    rw [get_aggregated_data_day]
    exact List.length_take_le _ _

/-- The generator of the 48 concrete hourly points used as the C7 witness. -/
def hourlyGen (i : ℕ) : WeatherPoint :=
  ⟨3600 * (i : ℚ), 15, 50, 1013, 5, 0⟩

/-- Witness for C7 at day `k = 0` and constant 15-degree temperatures. -/
theorem C7_bucketing_witness :
    (∀ i < 48, (hourlyGen i).timestamp = 86400 * ((0 : ℤ) : ℚ) + 3600 * (i : ℚ)) ∧
    (((get_aggregated_data_day ((List.range 48).map hourlyGen)).map (·.time_period) =
       [(0 : ℤ) + 1, 0]) ∧
     ((get_aggregated_data_day ((List.range 48).map hourlyGen)).map (·.data_points) =
       [24, 24]) ∧
     ((get_aggregated_data_day ((List.range 48).map hourlyGen)).map (·.avg_temperature) =
       [mean ((List.range 24).map fun i => (hourlyGen (24 + i)).temperature),
        mean ((List.range 24).map fun i => (hourlyGen i).temperature)]) ∧
     (∀ s : List WeatherPoint, (get_aggregated_data_day s).length ≤ 100)) := by
  have h : ∀ i < 48, (hourlyGen i).timestamp = 86400 * ((0 : ℤ) : ℚ) + 3600 * (i : ℚ) := by
    intro i _
    show (3600 * (i : ℚ)) = 86400 * ((0 : ℤ) : ℚ) + 3600 * (i : ℚ)
    norm_num
  exact ⟨h, C7_bucketing 0 hourlyGen h⟩

end WeatherPipeline
